import Mathlib

/-
Shallow embedding of the Django polls application (apps `polls` and `api`).

The data model follows polls/models.py: User, Question, Choice, Answer rows,
with the Answer table carrying the unique_together ("question", "choice",
"user") constraint. The two request handlers under verification follow
api/views.py: `QuestionViewSet.vote` (POST /question/{pk}/vote) and
`get_question_answers` (GET /question/{id}/results), together with the
serializer validation of api/serializers.py (`VoteSerializer`, a
ModelSerializer over Answer whose primary-key related fields validate in the
DRF order: per-field type and existence checks first, then the
UniqueTogetherValidator derived from the model constraint, reported under
non_field_errors).

Database tables are lists of rows in insertion order; primary keys are Nat.
Request bodies are form-encoded, so the submitted choice value is a string;
Django resolves a primary-key lookup by coercing the string with int(...),
modelled here by a digit-string parser (parsePk). Datetimes are modelled as
integer timestamps (seconds), so timedelta(days=1) is the constant 86400.
-/

namespace Polls

/-- Decimal digit value of a character, none when the character is not a
digit. Used to model the int(...) coercion Django applies to a submitted
primary-key string. -/
def digitVal (c : Char) : Option Nat :=
  if c.isDigit then some (c.toNat - 48) else none

/-- Accumulator pass over the characters of a submitted primary-key string. -/
def parsePkAux : List Char → Nat → Option Nat
  | [], acc => some acc
  | c :: cs, acc =>
    match digitVal c with
    | none => none
    | some d => parsePkAux cs (acc * 10 + d)

/-- Coercion of a submitted primary-key string to an integer key, modelling
the int(...) conversion inside the Django primary-key lookup: a non-empty
all-digit string yields its value, anything else fails (DRF then reports the
incorrect-type error, as exercised by test_vote_not_numeric_choice_id). -/
def parsePk (s : String) : Option Nat :=
  match s.data with
  | [] => none
  | c :: cs => parsePkAux (c :: cs) 0

/-- Framework collaborator (django set_password storing a salted hash).
Modelled as an injective tagging function: every claim in scope depends only
on which plaintext argument the hash is computed from, never on the hash
algorithm itself. -/
def hashPassword (raw : String) : String :=
  "pbkdf2_sha256$" ++ raw

/-- Framework collaborator (AbstractUser.normalize_username, NFKC
normalisation of a string, passing non-strings such as None through
unchanged). Modelled as the identity on the optional string, which is exact
on ASCII inputs. -/
def normalize_username (s : Option String) : Option String :=
  s

/-- Python falsiness of an optional string argument: None and the empty
string are falsy. Models the `if not password` guards in
User.create_user and User.create_superuser (polls/models.py). -/
def falsy : Option String → Bool
  | none => true
  | some s => s = ""

/-- Persisted user record as produced by the User factory methods of
polls/models.py. The password field holds the value stored at rest, which
set_password has hashed. -/
structure UserRecord where
  username : String
  email : Option String
  password : String
  first_name : Option String
  last_name : Option String
  is_superuser : Bool
  is_staff : Bool
deriving DecidableEq

/-- User.create_user(username, password, email, first_name, last_name) from
polls/models.py: guards on falsy username and password, stores the
normalised email, and persists the hash of the password argument (the
constructor first stores the plaintext, then set_password(password)
overwrites it with the hash before save). Arguments are positional, in the
source order of the signature. -/
def create_user (username : String) (password : Option String)
    (email : Option String) (first_name last_name : Option String) :
    Except String UserRecord :=
  if username = "" then .error "Users must have an username."
  else if falsy password then .error "Users must have a password."
  else
    .ok
      { username := username
        email := normalize_username email
        password := hashPassword (password.getD "")
        first_name := first_name
        last_name := last_name
        is_superuser := false
        is_staff := false }

/-- User.create_superuser(username, password, email, first_name, last_name)
from polls/models.py: guards on falsy username and password, then calls
cls.create_user(username, email, password, first_name, last_name) — note the
argument order of that call against the (username, password, email, ...)
signature of create_user — and finally raises the is_superuser and is_staff
flags before saving. -/
def create_superuser (username : String) (password : Option String)
    (email : Option String) (first_name last_name : Option String) :
    Except String UserRecord :=
  if username = "" then .error "Superusers must have an username."
  else if falsy password then .error "Superusers must have a password."
  else
    (create_user username email password first_name last_name).map
      (fun u => { u with is_superuser := true, is_staff := true })

/-- Stored user row, reduced to the columns the verified handlers read
(primary key and username). -/
structure UserRow where
  id : Nat
  username : String
deriving DecidableEq

/-- Stored Question row (polls/models.py): text, publication timestamp, and
the foreign key to the creating user. -/
structure QuestionRec where
  id : Nat
  question_text : String
  pub_date : Int
  created_by : Nat
deriving DecidableEq

/-- Stored Choice row (polls/models.py): foreign key to its question and the
choice text. -/
structure ChoiceRec where
  id : Nat
  question : Nat
  choice_text : String
deriving DecidableEq

/-- Stored Answer row (polls/models.py): one recorded vote, with foreign keys
to a question, a choice and a user. -/
structure AnswerRec where
  id : Nat
  question : Nat
  choice : Nat
  user : Nat
deriving DecidableEq

/-- Database state: one list of rows per table, in insertion order, plus the
autoincrement counter for the Answer table. -/
structure DB where
  users : List UserRow
  questions : List QuestionRec
  choices : List ChoiceRec
  answers : List AnswerRec
  nextAnswerId : Nat
deriving DecidableEq

/-- Per-field validation failure of the VoteSerializer, following the DRF
PrimaryKeyRelatedField error kinds exercised by the API tests: a null value,
a value that does not coerce to an integer key (incorrect_type), or an
integer key with no matching row (does_not_exist). -/
inductive FieldError where
  | nullNotAllowed : FieldError
  | incorrectType : FieldError
  | doesNotExist : Nat → FieldError
deriving DecidableEq

/-- Form-encoded body of a vote request. The handler reads only the choice
key (request.POST["choice"]); the user and question keys model extra data a
client may submit, which the handler never consults. none means the key is
absent from the body. -/
structure VoteBody where
  choice : Option String
  user : Option String
  question : Option String
deriving DecidableEq

/-- Response of the vote handler. badRequest carries the field-scoped errors
dict (HTTP 400), conflict the non_field_errors list (HTTP 409), created is
the empty 201 response, notFound the 404 raised by get_object, and
serverError the uncaught KeyError escaping request.POST["choice"] when the
body has no choice key. -/
inductive VoteResult where
  | notFound : VoteResult
  | serverError : VoteResult
  | badRequest : Option FieldError → Option FieldError → Option FieldError → VoteResult
  | conflict : List String → VoteResult
  | created : VoteResult
deriving DecidableEq

/-- Validation outcome of the whole VoteSerializer: either field-scoped
errors (user, question, choice in that order) or the unique-together
violation reported under non_field_errors. -/
inductive VoteErrors where
  | fieldErrors : Option FieldError → Option FieldError → Option FieldError → VoteErrors
  | nonFieldUnique : VoteErrors
deriving DecidableEq

/-- Validated data of the serializer (resolved primary keys). -/
structure ValidatedVote where
  question : Nat
  choice : Nat
  user : Nat
deriving DecidableEq

/-- Projection of a field validation result onto the errors dict entry. -/
def errOpt : Except FieldError Nat → Option FieldError
  | .ok _ => none
  | .error e => some e

/-- DRF validation of the choice entry of the body: the submitted string must
coerce to an integer key (otherwise incorrect_type) naming an existing Choice
row (otherwise does_not_exist). -/
def validateChoice (db : DB) (raw : String) : Except FieldError Nat :=
  match parsePk raw with
  | none => .error .incorrectType
  | some cid =>
    if db.choices.any (fun c => c.id == cid) then .ok cid
    else .error (.doesNotExist cid)

/-- VoteSerializer.is_valid on the data dict the vote action builds: the
user, question and choice primary-key fields validate first; only when all
three resolve does the UniqueTogetherValidator derived from the
unique_together ("question", "choice", "user") constraint run, failing with
non_field_errors when the exact triple is already present in the Answer
table. -/
def voteSerializerValidate (db : DB) (userVal : Option Nat) (questionVal : Nat)
    (choiceRaw : String) : Except VoteErrors ValidatedVote :=
  let uRes : Except FieldError Nat :=
    match userVal with
    | none => .error .nullNotAllowed
    | some uid =>
      if db.users.any (fun u => u.id == uid) then .ok uid
      else .error (.doesNotExist uid)
  let qRes : Except FieldError Nat :=
    if db.questions.any (fun q => q.id == questionVal) then .ok questionVal
    else .error (.doesNotExist questionVal)
  match uRes, qRes, validateChoice db choiceRaw with
  | .ok uid, .ok qid, .ok cid =>
    if db.answers.any (fun a => a.question == qid && a.choice == cid && a.user == uid) then
      .error .nonFieldUnique
    else
      .ok { question := qid, choice := cid, user := uid }
  | u, q, c => .error (.fieldErrors (errOpt u) (errOpt q) (errOpt c))

/-- Exact non_field_errors message of the DRF UniqueTogetherValidator for the
Answer constraint, as asserted by test_vote_already_answered_question. -/
def uniqueSetMessage : String :=
  "The fields question, choice, user must make a unique set."

/-- QuestionViewSet.vote (api/views.py): resolve the question from the URL
path (get_object raises 404 when absent), read request.POST["choice"] (an
absent key raises an uncaught KeyError, a server error), build the serializer
data dict from the authenticated user id, the resolved question id and the
submitted choice, run VoteSerializer; on non_field_errors answer 409, on
field errors answer 400, otherwise create the Answer row and answer 201.
The request user is none for an unauthenticated request (AnonymousUser,
whose id is None). -/
def vote (db : DB) (requestUser : Option Nat) (pk : Nat) (body : VoteBody) :
    VoteResult × DB :=
  match db.questions.find? (fun q => q.id == pk) with
  | none => (.notFound, db)
  | some question =>
    match body.choice with
    | none => (.serverError, db)
    | some choiceRaw =>
      match voteSerializerValidate db requestUser question.id choiceRaw with
      | .error (.fieldErrors u q c) => (.badRequest u q c, db)
      | .error .nonFieldUnique => (.conflict [uniqueSetMessage], db)
      | .ok v =>
        (.created,
          { db with
              answers := db.answers ++ [⟨db.nextAnswerId, v.question, v.choice, v.user⟩]
              nextAnswerId := db.nextAnswerId + 1 })

/-- Minimal user representation of the results payload
(UserAnswerResultSerializer: fields id and username). -/
structure UserOut where
  id : Nat
  username : String
deriving DecidableEq

/-- Minimal choice representation of the results payload
(ChoiceAnswerResultSerializer: fields id and choice_text). -/
structure ChoiceOut where
  id : Nat
  choice_text : String
deriving DecidableEq

/-- One entry of the results payload (AnswerResultListSerializer: fields user
and choice, each rendered by its nested serializer). -/
structure AnswerOut where
  user : UserOut
  choice : ChoiceOut
deriving DecidableEq

/-- AnswerResultListSerializer applied to one Answer row: the nested
serializers render the referenced user and choice rows. The none branches are
unreachable when the foreign keys of the row resolve, which the ORM cascade
rules guarantee for persisted rows. -/
def serializeAnswer (db : DB) (a : AnswerRec) : AnswerOut :=
  { user :=
      match db.users.find? (fun u => u.id == a.user) with
      | some u => { id := u.id, username := u.username }
      | none => { id := a.user, username := "" }
    choice :=
      match db.choices.find? (fun c => c.id == a.choice) with
      | some c => { id := c.id, choice_text := c.choice_text }
      | none => { id := a.choice, choice_text := "" } }

/-- Response of the results handler: 404, 403 with its plain-text message, or
200 with the serialized answer list. -/
inductive ResultsResult where
  | notFound : ResultsResult
  | forbidden : String → ResultsResult
  | ok : List AnswerOut → ResultsResult
deriving DecidableEq

/-- get_question_answers (api/views.py): get_object_or_404 on the question
id, then the ownership check user.id != question.created_by.id (an
unauthenticated AnonymousUser has id None, which differs from every stored
key), then the queryset filter
Answer.objects.filter(question__created_by=user.id, question=question.id)
serialized with AnswerResultListSerializer(many=True), in table order, with
no pagination. -/
def get_question_answers (db : DB) (requestUser : Option Nat)
    (question_id : Nat) : ResultsResult :=
  match db.questions.find? (fun q => q.id == question_id) with
  | none => .notFound
  | some question =>
    match requestUser with
    | none => .forbidden "Only the creator of a question can obtain its answers"
    | some uid =>
      if uid ≠ question.created_by then
        .forbidden "Only the creator of a question can obtain its answers"
      else
        .ok
          ((db.answers.filter (fun a =>
            (match db.questions.find? (fun q2 => q2.id == a.question) with
             | some q2 => q2.created_by == uid
             | none => false) && a.question == question.id)).map
            (serializeAnswer db))

/-- One day, in the integer timestamp unit (seconds), modelling
datetime.timedelta(days=1). -/
def oneDay : Int := 86400

/-- Question.was_published_recently (polls/models.py): the chained comparison
now - timedelta(days=1) <= self.pub_date <= now. -/
def was_published_recently (q : QuestionRec) (now : Int) : Bool :=
  decide (now - oneDay ≤ q.pub_date) && decide (q.pub_date ≤ now)

/-- Example fixture: the question of the API test scenarios, created by
user 1. -/
def matrixQuestion : QuestionRec :=
  { id := 1
    question_text := "Do you want to know what is the Matrix?"
    pub_date := 0
    created_by := 1 }

/-- Example fixture database: two users, one question created by user 1, two
choices, and one recorded answer of user 2 for choice 10. -/
def matrixDB : DB :=
  { users := [{ id := 1, username := "morpheus" }, { id := 2, username := "neo" }]
    questions := [matrixQuestion]
    choices := [{ id := 10, question := 1, choice_text := "Red pill" },
                { id := 11, question := 1, choice_text := "Blue pill" }]
    answers := [{ id := 1, question := 1, choice := 10, user := 2 }]
    nextAnswerId := 2 }

/-- A question returned by the primary-key lookup passes the existence scan
the serializer performs on the questions table with the id of that question. -/
theorem question_any_of_find {db : DB} {pk : Nat} {q : QuestionRec}
    (h : db.questions.find? (fun x => x.id == pk) = some q) :
    db.questions.any (fun x => x.id == q.id) = true :=
  List.any_eq_true.mpr ⟨q, List.mem_of_find?_eq_some h, by simp⟩

/-- Shared success path of the vote handler: when the question resolves, the
body carries a choice string that parses to an existing choice, the user
exists, and the exact triple is not yet recorded, the handler answers 201 and
appends exactly one Answer row. -/
theorem vote_success_eq (db : DB) (uid pk : Nat) (q : QuestionRec) (body : VoteBody)
    (raw : String) (cid : Nat)
    (hq : db.questions.find? (fun x => x.id == pk) = some q)
    (hb : body.choice = some raw)
    (hraw : parsePk raw = some cid)
    (hu : db.users.any (fun u => u.id == uid) = true)
    (hc : db.choices.any (fun c => c.id == cid) = true)
    (hdup : db.answers.any
      (fun a => a.question == q.id && a.choice == cid && a.user == uid) = false) :
    vote db (some uid) pk body =
      (.created,
        { db with
            answers := db.answers ++ [⟨db.nextAnswerId, q.id, cid, uid⟩]
            nextAnswerId := db.nextAnswerId + 1 }) := by
  simp [vote, hq, hb, voteSerializerValidate, validateChoice, hraw, hu, hc, hdup,
    question_any_of_find hq]

/-- Claim C1: for an existing question, an existing choice, and an
authenticated existing user whose triple is already in the Answer table, the
vote handler answers 409 with the non_field_errors body and leaves the
database, in particular the Answer table, unchanged. -/
theorem vote_duplicate_conflict (db : DB) (uid pk : Nat) (q : QuestionRec)
    (body : VoteBody) (raw : String) (cid : Nat)
    (hq : db.questions.find? (fun x => x.id == pk) = some q)
    (hb : body.choice = some raw)
    (hraw : parsePk raw = some cid)
    (hu : db.users.any (fun u => u.id == uid) = true)
    (hc : db.choices.any (fun c => c.id == cid) = true)
    (hdup : db.answers.any
      (fun a => a.question == q.id && a.choice == cid && a.user == uid) = true) :
    vote db (some uid) pk body = (.conflict [uniqueSetMessage], db) := by
  simp [vote, hq, hb, voteSerializerValidate, validateChoice, hraw, hu, hc, hdup,
    question_any_of_find hq]

/-- Witness for C1: user 2 already answered question 1 with choice 10 in the
fixture database; a second identical vote yields the conflict and the
unchanged database. -/
theorem vote_duplicate_conflict_witness :
    vote matrixDB (some 2) 1 { choice := some "10", user := none, question := none } =
      (.conflict [uniqueSetMessage], matrixDB) :=
  vote_duplicate_conflict matrixDB 2 1 matrixQuestion
    { choice := some "10", user := none, question := none } "10" 10
    rfl rfl rfl rfl rfl rfl

/-- Claim C2 counterexample: in the fixture database user 2 already holds the
answer (question 1, choice 10); a vote by user 2 for the distinct existing
choice 11 of the same question is not rejected: it answers 201 and the ledger
now holds two answers of user 2 for question 1. -/
theorem vote_second_choice_not_prevented :
    (vote matrixDB (some 2) 1 { choice := some "11", user := none, question := none }).1 =
      VoteResult.created ∧
    ((vote matrixDB (some 2) 1
        { choice := some "11", user := none, question := none }).2.answers.filter
      (fun a => a.user == 2 && a.question == 1)).length = 2 :=
  ⟨rfl, rfl⟩

/-- Claim C2 as amended: the application logic rejects only the exact
(question, choice, user) triple; a second vote by the same user for the same
question with a different existing choice is accepted, answers 201, and
records a second Answer row, so the user then holds answers for two different
choices of one question. -/
theorem vote_different_choice_accepted (db : DB) (uid pk : Nat) (q : QuestionRec)
    (body : VoteBody) (raw : String) (cid : Nat) (a : AnswerRec)
    (hq : db.questions.find? (fun x => x.id == pk) = some q)
    (hb : body.choice = some raw)
    (hraw : parsePk raw = some cid)
    (hu : db.users.any (fun u => u.id == uid) = true)
    (hc : db.choices.any (fun c => c.id == cid) = true)
    (hdup : db.answers.any
      (fun a => a.question == q.id && a.choice == cid && a.user == uid) = false)
    (ha : a ∈ db.answers) (haq : a.question = q.id) (hau : a.user = uid)
    (hne : a.choice ≠ cid) :
    (vote db (some uid) pk body).1 = .created ∧
    a ∈ (vote db (some uid) pk body).2.answers ∧
    ({ id := db.nextAnswerId, question := q.id, choice := cid, user := uid } : AnswerRec) ∈
      (vote db (some uid) pk body).2.answers := by
  have h := vote_success_eq db uid pk q body raw cid hq hb hraw hu hc hdup
  rw [h]
  exact ⟨rfl, List.mem_append_left _ ha, List.mem_append_right _ (by simp)⟩

/-- Witness for the amended C2: user 2 holds (question 1, choice 10) and
votes for choice 11 of question 1; the vote is created and both answers are
in the resulting table. -/
theorem vote_different_choice_accepted_witness :
    (vote matrixDB (some 2) 1
      { choice := some "11", user := none, question := none }).1 = .created ∧
    ({ id := 1, question := 1, choice := 10, user := 2 } : AnswerRec) ∈
      (vote matrixDB (some 2) 1
        { choice := some "11", user := none, question := none }).2.answers ∧
    ({ id := 2, question := 1, choice := 11, user := 2 } : AnswerRec) ∈
      (vote matrixDB (some 2) 1
        { choice := some "11", user := none, question := none }).2.answers :=
  vote_different_choice_accepted matrixDB 2 1 matrixQuestion
    { choice := some "11", user := none, question := none } "11" 11
    { id := 1, question := 1, choice := 10, user := 2 }
    rfl rfl rfl rfl rfl rfl (by simp [matrixDB]) rfl rfl (by decide)

/-- Claim C3: when no question has the requested id, the vote handler and the
results handler both answer 404, for every requester (anonymous included) and
every request body, before the choice value or any ownership is examined. -/
theorem nonexistent_question_not_found (db : DB) (requestUser : Option Nat)
    (pk : Nat) (body : VoteBody)
    (hq : db.questions.find? (fun x => x.id == pk) = none) :
    vote db requestUser pk body = (.notFound, db) ∧
    get_question_answers db requestUser pk = .notFound := by
  constructor
  · unfold vote
    rw [hq]
  · unfold get_question_answers
    rw [hq]

/-- Witness for C3: question 99 does not exist in the fixture database; a
vote with an empty body and a results query by user 2 both answer 404. -/
theorem nonexistent_question_not_found_witness :
    vote matrixDB (some 2) 99 { choice := none, user := none, question := none } =
      (.notFound, matrixDB) ∧
    get_question_answers matrixDB (some 2) 99 = .notFound :=
  nonexistent_question_not_found matrixDB (some 2) 99
    { choice := none, user := none, question := none } rfl

/-- Claim C4: for an existing question, a results query by an authenticated
user whose id differs from the id of the creator of the question answers 403
with exactly the fixed message, and carries no answer data. -/
theorem results_non_creator_forbidden (db : DB) (uid pk : Nat) (q : QuestionRec)
    (hq : db.questions.find? (fun x => x.id == pk) = some q)
    (hne : uid ≠ q.created_by) :
    get_question_answers db (some uid) pk =
      .forbidden "Only the creator of a question can obtain its answers" := by
  unfold get_question_answers
  rw [hq]
  simp [hne]

/-- Witness for C4: user 2 is not the creator of question 1 (user 1 is); the
results query answers 403 with the fixed message. -/
theorem results_non_creator_forbidden_witness :
    get_question_answers matrixDB (some 2) 1 =
      .forbidden "Only the creator of a question can obtain its answers" :=
  results_non_creator_forbidden matrixDB 2 1 matrixQuestion rfl (by decide)

/-- Claim C5: for an existing question queried by its creator, the results
handler answers 200 with one serialized (user, choice) pair per Answer row of
the question, in table (insertion) order, the user rendered as id and
username and the choice as id and choice text, the whole list without
pagination; with zero answers the payload is the empty list. -/
theorem results_creator_receives_all (db : DB) (uid pk : Nat) (q : QuestionRec)
    (hq : db.questions.find? (fun x => x.id == pk) = some q)
    (hcb : q.created_by = uid) :
    get_question_answers db (some uid) pk =
      .ok ((db.answers.filter (fun a => a.question == q.id)).map (serializeAnswer db)) ∧
    (db.answers.filter (fun a => a.question == q.id) = [] →
      get_question_answers db (some uid) pk = .ok []) := by
  subst hcb
  have hqid : q.id = pk := by simpa using List.find?_some hq
  have hfilter : (db.answers.filter (fun a =>
      (match db.questions.find? (fun q2 => q2.id == a.question) with
       | some q2 => q2.created_by == q.created_by
       | none => false) && a.question == q.id)) =
      db.answers.filter (fun a => a.question == q.id) := by
    apply List.filter_congr
    intro a _
    by_cases hqa : a.question = q.id
    · rw [hqa, hqid, hq]
      simp [hqa]
    · simp [hqa]
  have hmain : get_question_answers db (some q.created_by) pk =
      .ok ((db.answers.filter (fun a => a.question == q.id)).map (serializeAnswer db)) := by
    unfold get_question_answers
    rw [hq]
    simp only [ne_eq, not_true_eq_false, if_false, reduceIte]
    rw [hfilter]
  refine ⟨hmain, fun hempty => ?_⟩
  rw [hmain, hempty]
  rfl

/-- Witness for C5: user 1 created question 1; the results query answers 200
with the single recorded answer, rendered minimally. -/
theorem results_creator_receives_all_witness :
    get_question_answers matrixDB (some 1) 1 =
      .ok ((matrixDB.answers.filter (fun a => a.question == matrixQuestion.id)).map
        (serializeAnswer matrixDB)) ∧
    (matrixDB.answers.filter (fun a => a.question == matrixQuestion.id) = [] →
      get_question_answers matrixDB (some 1) 1 = .ok []) :=
  results_creator_receives_all matrixDB 1 1 matrixQuestion rfl rfl

/-- Claim C6 counterexample: in the fixture database question 1 exists and
user 2 is authenticated, but a vote request whose body has no choice key does
not answer 400 with a choice-scoped error: request.POST["choice"] raises an
uncaught KeyError, a server error. -/
theorem vote_missing_choice_server_error :
    vote matrixDB (some 2) 1 { choice := none, user := some "7", question := none } =
      (VoteResult.serverError, matrixDB) :=
  rfl

/-- Claim C6 as amended: for an existing question and an authenticated
existing user, a choice value that does not coerce to an integer key or names
no existing Choice row answers 400 with the error scoped to the choice field
and leaves the database unchanged, while a body with no choice key at all
raises an uncaught error (a server error), not a 400. -/
theorem vote_bad_choice_field_error (db : DB) (uid pk : Nat) (q : QuestionRec)
    (bodyBad bodyMissing : VoteBody) (raw : String) (e : FieldError)
    (hq : db.questions.find? (fun x => x.id == pk) = some q)
    (hu : db.users.any (fun u => u.id == uid) = true)
    (hb : bodyBad.choice = some raw)
    (he : validateChoice db raw = .error e)
    (hm : bodyMissing.choice = none) :
    vote db (some uid) pk bodyBad = (.badRequest none none (some e), db) ∧
    vote db (some uid) pk bodyMissing = (.serverError, db) := by
  constructor
  · simp [vote, hq, hb, voteSerializerValidate, he, hu, question_any_of_find hq, errOpt]
  · unfold vote
    rw [hq, hm]

/-- Witness for the amended C6: the non-numeric choice value x yields the 400
with the incorrect-type choice error, and the body with no choice key yields
the server error. -/
theorem vote_bad_choice_field_error_witness :
    vote matrixDB (some 2) 1 { choice := some "x", user := none, question := none } =
      (.badRequest none none (some .incorrectType), matrixDB) ∧
    vote matrixDB (some 2) 1 { choice := none, user := none, question := none } =
      (.serverError, matrixDB) :=
  vote_bad_choice_field_error matrixDB 2 1 matrixQuestion
    { choice := some "x", user := none, question := none }
    { choice := none, user := none, question := none } "x" .incorrectType
    rfl rfl rfl rfl rfl

/-- Claim C7: a successful vote appends exactly one Answer row built from the
requesting user, the resolved question and the validated choice, and changes
nothing else: the user, question and choice tables are untouched (the model,
like the source, has no denormalized vote counters) and no other Answer row
is created, modified or deleted. -/
theorem vote_success_frame (db : DB) (uid pk : Nat) (q : QuestionRec)
    (body : VoteBody) (raw : String) (cid : Nat)
    (hq : db.questions.find? (fun x => x.id == pk) = some q)
    (hb : body.choice = some raw)
    (hraw : parsePk raw = some cid)
    (hu : db.users.any (fun u => u.id == uid) = true)
    (hc : db.choices.any (fun c => c.id == cid) = true)
    (hdup : db.answers.any
      (fun a => a.question == q.id && a.choice == cid && a.user == uid) = false) :
    (vote db (some uid) pk body).1 = .created ∧
    (vote db (some uid) pk body).2.users = db.users ∧
    (vote db (some uid) pk body).2.questions = db.questions ∧
    (vote db (some uid) pk body).2.choices = db.choices ∧
    (vote db (some uid) pk body).2.answers =
      db.answers ++ [{ id := db.nextAnswerId, question := q.id, choice := cid, user := uid }] := by
  have h := vote_success_eq db uid pk q body raw cid hq hb hraw hu hc hdup
  rw [h]
  exact ⟨rfl, rfl, rfl, rfl, rfl⟩

/-- Witness for C7: the first vote of user 1 for choice 11 of question 1
answers 201 and appends exactly the one new Answer row. -/
theorem vote_success_frame_witness :
    (vote matrixDB (some 1) 1 { choice := some "11", user := none, question := none }).1 =
      .created ∧
    (vote matrixDB (some 1) 1
      { choice := some "11", user := none, question := none }).2.users = matrixDB.users ∧
    (vote matrixDB (some 1) 1
      { choice := some "11", user := none, question := none }).2.questions =
        matrixDB.questions ∧
    (vote matrixDB (some 1) 1
      { choice := some "11", user := none, question := none }).2.choices =
        matrixDB.choices ∧
    (vote matrixDB (some 1) 1
      { choice := some "11", user := none, question := none }).2.answers =
      matrixDB.answers ++
        [{ id := matrixDB.nextAnswerId, question := matrixQuestion.id, choice := 11, user := 1 }] :=
  vote_success_frame matrixDB 1 1 matrixQuestion
    { choice := some "11", user := none, question := none } "11" 11
    rfl rfl rfl rfl rfl rfl

/-- Claim C8: the vote handler builds the recorded answer only from the
authenticated requester, the question of the URL path and the choice entry of
the body; two requests whose bodies agree on the choice entry produce the
same response and the same database, whatever user or question values the
bodies carry. -/
theorem vote_ignores_body_user_question (db : DB) (requestUser : Option Nat)
    (pk : Nat) (b1 b2 : VoteBody) (h : b1.choice = b2.choice) :
    vote db requestUser pk b1 = vote db requestUser pk b2 := by
  unfold vote
  rw [h]

/-- Witness for C8: a body smuggling user 999 and question 999 gives exactly
the outcome of the plain body with the same choice entry. -/
theorem vote_ignores_body_user_question_witness :
    vote matrixDB (some 2) 1 { choice := some "11", user := some "999", question := some "999" } =
      vote matrixDB (some 2) 1 { choice := some "11", user := none, question := none } :=
  vote_ignores_body_user_question matrixDB (some 2) 1
    { choice := some "11", user := some "999", question := some "999" }
    { choice := some "11", user := none, question := none } rfl

/-- Claim C9: for a non-empty username, a truthy password and a truthy email,
create_superuser hands its arguments to create_user in the swapped positional
order (username, email, password against the signature username, password,
email), so the persisted record stores the hash of the email argument as its
password credential and derives its stored email from the password
argument. -/
theorem create_superuser_swapped (u : String) (p e fn ln : Option String)
    (hu : u ≠ "") (hp : falsy p = false) (he : falsy e = false) :
    create_superuser u p e fn ln =
      .ok
        { username := u
          email := normalize_username p
          password := hashPassword (e.getD "")
          first_name := fn
          last_name := ln
          is_superuser := true
          is_staff := true } := by
  unfold create_superuser create_user
  simp [hu, hp, he, Except.map]

/-- Witness for C9: creating the superuser trinity with password pw and email
t at x dot com stores the hash of the email as the credential and the
password string as the email. -/
theorem create_superuser_swapped_witness :
    create_superuser "trinity" (some "pw") (some "t@x.com") none none =
      .ok
        { username := "trinity"
          email := normalize_username (some "pw")
          password := hashPassword ((some "t@x.com").getD "")
          first_name := none
          last_name := none
          is_superuser := true
          is_staff := true } :=
  create_superuser_swapped "trinity" (some "pw") (some "t@x.com") none none
    (by decide) rfl rfl

/-- Claim C10: was_published_recently is true exactly when the publication
time lies in the closed interval from one day before now up to now, so it is
false both for publication more than one day in the past and for publication
in the future. -/
theorem was_published_recently_iff (q : QuestionRec) (now : Int) :
    (was_published_recently q now = true ↔
      now - oneDay ≤ q.pub_date ∧ q.pub_date ≤ now) ∧
    (q.pub_date < now - oneDay → was_published_recently q now = false) ∧
    (now < q.pub_date → was_published_recently q now = false) := by
  unfold was_published_recently
  refine ⟨by simp, fun h => ?_, fun h => ?_⟩ <;> simp <;> omega

/-- Witness for C10: a question published at time 0 is recent at time 100,
and the interval bounds hold there. -/
theorem was_published_recently_iff_witness :
    (was_published_recently { id := 1, question_text := "t", pub_date := 0, created_by := 1 }
        100 = true ↔
      (100 : Int) - oneDay ≤ 0 ∧ (0 : Int) ≤ 100) ∧
    ((0 : Int) < 100 - oneDay →
      was_published_recently { id := 1, question_text := "t", pub_date := 0, created_by := 1 }
        100 = false) ∧
    ((100 : Int) < 0 →
      was_published_recently { id := 1, question_text := "t", pub_date := 0, created_by := 1 }
        100 = false) :=
  was_published_recently_iff { id := 1, question_text := "t", pub_date := 0, created_by := 1 } 100

end Polls
